import Mathlib

/-!
Verification development for a sliding-block (Klotski) puzzle core:
a 5-row by 4-column board holding rectangular blocks, with an occupancy
map (empty cells hold -1, occupied cells hold the id of the occupying
block), movability computation per block, legal-move enumeration, and
move application.  The definitions below are a shallow embedding of the
Python source (klotski.py), including its use of numpy slicing: a slice
with a negative start is normalised by adding the axis length (clamping
at 0), a stop past the end is clipped, and an empty selection arises
when the normalised start is not below the normalised stop; a single
(non-slice) index wraps negative values by adding the axis length and
raises an index error outside [-n, n).
-/

deriving instance DecidableEq for Except

namespace Klotski

/-- Normalisation of a slice endpoint for an axis of length n, exactly as
Python slices do for step 1: negative endpoints get the axis length added
(clamped below at 0), endpoints past the end are clipped to n. -/
def normIdx (a : Int) (n : Nat) : Nat :=
  if a < 0 then (a + n).toNat else min a.toNat n

/-- The list of indices selected by the slice a : b on an axis of length n
(step 1), as numpy selects them. -/
def sliceIdx (a b : Int) (n : Nat) : List Nat :=
  List.range' (normIdx a n) (normIdx b n - normIdx a n)

/-- A single (non-slice) index into an axis of length n: negative values
wrap by adding n; values outside [-n, n) raise IndexError (modelled as
none). -/
def pyIdx (a : Int) (n : Nat) : Option Nat :=
  if 0 ≤ a ∧ a < n then some a.toNat
  else if -(n : Int) ≤ a ∧ a < 0 then some (a + n).toNat
  else none

/-- Read one cell of the occupancy grid (row i, column j). -/
def getCell (occ : List (List Int)) (i j : Nat) : Int :=
  (occ.getD i []).getD j (-1)

/-- Write one cell of the occupancy grid. -/
def setCell (occ : List (List Int)) (i j : Nat) (v : Int) : List (List Int) :=
  occ.set i ((occ.getD i []).set j v)

/-- Write a rectangular selection of cells (numpy slice assignment). -/
def setRect (occ : List (List Int)) (rows cols : List Nat) (v : Int) : List (List Int) :=
  rows.foldl (fun o i => cols.foldl (fun o2 j => setCell o2 i j v) o) occ

/-- Number of cells of the occupancy grid equal to -1, i.e. unoccupied,
as computed by np.sum(occupancy == -1). -/
def countEmpty (occ : List (List Int)) : Nat :=
  (occ.map (fun row => row.countP (fun x => decide (x = -1)))).sum

/-- A sliding block: row and column of the top-left corner, height and
width.  The id of a block is its index in the board's block list (the
Python source keys a dict by consecutive integers starting at 0). -/
structure Block where
  r : Int
  c : Int
  h : Nat
  w : Nat
deriving DecidableEq, Inhabited

/-- The cells geometrically covered by a block according to its stored
row, column, height and width. -/
def blockCells (bl : Block) : List (Int × Int) :=
  (List.range bl.h).flatMap (fun di =>
    (List.range bl.w).map (fun dj => (bl.r + (di : Int), bl.c + (dj : Int))))

/-- Block construction with validation, a shallow embedding of
Block.__post_init__: row must be 0-4 and column 0-3; the size check is,
verbatim from the source, (h < 1) or (h > 2) or (w < 1) or (h > 2) -
note the source tests h > 2 twice and never tests w > 2. -/
def blockNew (r c hgt wid : Int) : Except Unit Block :=
  if r < 0 ∨ r > 4 ∨ c < 0 ∨ c > 3 then Except.error ()
  else if hgt < 1 ∨ hgt > 2 ∨ wid < 1 ∨ hgt > 2 then Except.error ()
  else Except.ok (Block.mk r c hgt.toNat wid.toNat)

/-- True when the rectangular numpy selection rows r : r+h, cols c : c+w
of the occupancy grid contains a cell holding a value that is at least 0,
i.e. (occupancy[r : r + h, c : c + w] >= 0).any(). -/
def checkValidB (occ : List (List Int)) (r c : Int) (hgt wid : Nat) : Bool :=
  (sliceIdx r (r + hgt) 5).any (fun i =>
    (sliceIdx c (c + wid) 4).any (fun j => decide (0 ≤ getCell occ i j)))

/-- Board.check_valid_position: raises (error) exactly when the selected
region of occupancy contains an occupied cell; no mutation. -/
def check_valid_position (occ : List (List Int)) (r c : Int) (hgt wid : Nat) :
    Except Unit Unit :=
  if checkValidB occ r c hgt wid then Except.error () else Except.ok ()

/-- The four movability flags computed by Block._check_moves, in the
order the attributes are declared. -/
structure Moves where
  can_move_north : Bool
  can_move_east : Bool
  can_move_south : Bool
  can_move_west : Bool
deriving DecidableEq, Inhabited

/-- True when occupancy row i, columns a : b (numpy slice), holds an
occupied cell. -/
def rowStrip (occ : List (List Int)) (i : Nat) (a b : Int) : Bool :=
  (sliceIdx a b 4).any (fun j => decide (0 ≤ getCell occ i j))

/-- True when occupancy column j, rows a : b (numpy slice), holds an
occupied cell. -/
def colStrip (occ : List (List Int)) (j : Nat) (a b : Int) : Bool :=
  (sliceIdx a b 5).any (fun i => decide (0 ≤ getCell occ i j))

/-- Block._check_moves: movability in the four directions.  The checks
are performed in source order (north, south, west, east); each reads one
single row or column index, which raises IndexError (error) when out of
numpy single-index range.  Faithful to the source, the south check reads
row r + 1 (not r + h) and the east check reads column c + 1 (not c + w). -/
def check_moves (bl : Block) (occ : List (List Int)) : Except Unit Moves := do
  let cn ← if bl.r = 0 then Except.ok false
    else match pyIdx (bl.r - 1) 5 with
      | some i => Except.ok (!(rowStrip occ i bl.c (bl.c + bl.w)))
      | none => Except.error ()
  let cs ← if bl.r = 4 then Except.ok false
    else match pyIdx (bl.r + 1) 5 with
      | some i => Except.ok (!(rowStrip occ i bl.c (bl.c + bl.w)))
      | none => Except.error ()
  let cw ← if bl.c = 0 then Except.ok false
    else match pyIdx (bl.c - 1) 4 with
      | some j => Except.ok (!(colStrip occ j bl.r (bl.r + bl.h)))
      | none => Except.error ()
  let ce ← if bl.c = 3 then Except.ok false
    else match pyIdx (bl.c + 1) 4 with
      | some j => Except.ok (!(colStrip occ j bl.r (bl.r + bl.h)))
      | none => Except.error ()
  Except.ok (Moves.mk cn ce cs cw)

/-- The board: the occupancy grid and the block list (block id = list
index, matching the consecutive integer keys of the Python dict). -/
structure Board where
  occupancy : List (List Int)
  blocks : List Block
deriving DecidableEq, Inhabited

/-- The four move directions (the Python source passes them as strings;
any other string raises before any state change, so the enum suffices). -/
inductive Dir where
  | north
  | east
  | south
  | west
deriving DecidableEq, Inhabited

/-- Errors move_block can raise. -/
inductive MErr where
  | unknownBlock
  | placementConflict
  | indexError
deriving DecidableEq, Inhabited

/-- Board._add_block (and _add_main_block, which is the h = w = 2 case):
checks the position against occupancy, validates the block, appends it
with the next id (the length of the block list, since ids are
consecutive from 0) and slice-assigns the id into occupancy. -/
def addBlock (b : Board) (r c hgt wid : Int) : Except Unit Board :=
  if checkValidB b.occupancy r c hgt.toNat wid.toNat then Except.error ()
  else match blockNew r c hgt wid with
    | Except.error e => Except.error e
    | Except.ok bl =>
      Except.ok (Board.mk
        (setRect b.occupancy (sliceIdx r (r + hgt) 5) (sliceIdx c (c + wid) 4)
          (Int.ofNat b.blocks.length))
        (b.blocks ++ [bl]))

/-- Board._initialise_board: the fixed 13-block starting layout on an
all-empty 5 x 4 grid, followed by the source's assertion that exactly 2
cells are unoccupied. -/
def initialise_board : Except Unit Board := do
  let b := Board.mk (List.replicate 5 (List.replicate 4 (-1))) []
  let b ← addBlock b 0 1 2 2
  let b ← addBlock b 0 0 1 1
  let b ← addBlock b 0 3 1 1
  let b ← addBlock b 1 0 1 1
  let b ← addBlock b 1 3 1 1
  let b ← addBlock b 2 0 2 1
  let b ← addBlock b 2 1 1 1
  let b ← addBlock b 2 2 1 1
  let b ← addBlock b 2 3 2 1
  let b ← addBlock b 3 1 1 1
  let b ← addBlock b 3 2 1 1
  let b ← addBlock b 4 0 1 1
  let b ← addBlock b 4 3 1 1
  if countEmpty b.occupancy = 2 then Except.ok b else Except.error ()

/-- The fresh board produced by Board(), i.e. Board.new(). -/
def fresh : Board :=
  match initialise_board with
  | Except.ok b => b
  | Except.error _ => default

/-- Board.find_valid_moves: for each block in id order, compute its
movability flags against the current occupancy and append one entry per
allowed direction in the order north, east, south, west; the source then
asserts the list is non-empty (error when it is). -/
def find_valid_moves (b : Board) : Except Unit (List (Nat × Dir)) := do
  let l ← b.blocks.enum.foldlM (fun acc p => do
    let m ← check_moves p.2 b.occupancy
    Except.ok (acc
      ++ (if m.can_move_north then [(p.1, Dir.north)] else [])
      ++ (if m.can_move_east then [(p.1, Dir.east)] else [])
      ++ (if m.can_move_south then [(p.1, Dir.south)] else [])
      ++ (if m.can_move_west then [(p.1, Dir.west)] else []))) []
  if l = [] then Except.error () else Except.ok l

/-- Board.move_block: rejects an unknown id, computes the candidate
corner from the direction, calls check_valid_position on the candidate
footprint (PlacementConflict on overlap), then updates the stored
row/column and writes occupancy[old_r, old_c] = -1 and
occupancy[new_r, new_c] = block_id - single-cell writes at the corners
only, with numpy single-index wrapping, exactly as the source does. -/
def move_block (b : Board) (block_id : Nat) (d : Dir) : Except MErr Board :=
  match b.blocks.get? block_id with
  | none => Except.error MErr.unknownBlock
  | some bl =>
    let old_r := bl.r
    let old_c := bl.c
    let nr := match d with
      | Dir.north => old_r - 1
      | Dir.south => old_r + 1
      | _ => old_r
    let nc := match d with
      | Dir.east => old_c + 1
      | Dir.west => old_c - 1
      | _ => old_c
    if checkValidB b.occupancy nr nc bl.h bl.w then Except.error MErr.placementConflict
    else match pyIdx old_r 5, pyIdx old_c 4 with
      | some i1, some j1 =>
        (match pyIdx nr 5, pyIdx nc 4 with
          | some i2, some j2 =>
            Except.ok (Board.mk
              (setCell (setCell b.occupancy i1 j1 (-1)) i2 j2 (Int.ofNat block_id))
              (b.blocks.set block_id (Block.mk nr nc bl.h bl.w)))
          | _, _ => Except.error MErr.indexError)
      | _, _ => Except.error MErr.indexError

/-- True when the Except value is a success. -/
def isOk {e a : Type} (x : Except e a) : Bool :=
  match x with
  | Except.ok _ => true
  | Except.error _ => false

/-- Apply a move, keeping the previous board when the move raises. -/
def applyMove (b : Board) (block_id : Nat) (d : Dir) : Board :=
  match move_block b block_id d with
  | Except.ok b2 => b2
  | Except.error _ => b

/-- Apply a sequence of moves (each failed move leaves the board as is). -/
def applySeq (b : Board) (l : List (Nat × Dir)) : Board :=
  l.foldl (fun s p => applyMove s p.1 p.2) b

/-- True when every move of the sequence, applied in order, succeeds. -/
def seqOk : Board → List (Nat × Dir) → Bool
  | _, [] => true
  | b, p :: t =>
    match move_block b p.1 p.2 with
    | Except.ok x => seqOk x t
    | Except.error _ => false

/-- The legal-move list, with the empty list standing for an error. -/
def fvmD (b : Board) : List (Nat × Dir) :=
  match find_valid_moves b with
  | Except.ok l => l
  | Except.error _ => []

/-- Claim C8: on the fresh board, find_valid_moves returns the non-empty
sequence [(9, south), (10, south), (11, east), (12, west)], and each of
these moves, passed to move_block, succeeds. -/
theorem c8_fresh_valid_moves_complete :
    find_valid_moves fresh =
      Except.ok [(9, Dir.south), (10, Dir.south), (11, Dir.east), (12, Dir.west)] ∧
    ([(9, Dir.south), (10, Dir.south), (11, Dir.east), (12, Dir.west)] ≠
      ([] : List (Nat × Dir))) ∧
    ([(9, Dir.south), (10, Dir.south), (11, Dir.east), (12, Dir.west)].all
      (fun p => isOk (move_block fresh p.1 p.2))) = true := by
  decide

/-- Claim C1 (code evaluated at the failing input): from the fresh board,
move_block(1, north) is a successful call - block 1 sits on the top row,
the candidate row is -1, and the numpy slice occupancy[-1:0, 0:1] selects
no cells, so check_valid_position raises nothing - yet the resulting
reachable board has 3 empty cells, not 2: the old corner (0,0) is
cleared while the new-corner write wraps to row 4 and overwrites the
cell of block 11 instead of occupying a fresh cell. -/
theorem c1_reachable_board_three_empty :
    seqOk fresh [(1, Dir.north)] = true ∧
    countEmpty (applySeq fresh [(1, Dir.north)]).occupancy = 3 ∧
    getCell (applySeq fresh [(1, Dir.north)]).occupancy 4 0 = 1 := by
  decide

/-- Claim C2 (code evaluated at the failing input): after the legal move
sequence (9,south),(6,south),(7,west),(10,south), moving the 2 x 1 block
8 west succeeds, but move_block updates only the two corner cells: the
new footprint of block 8 (rows 2-3, column 2) is left unwritten at
(3,2), which still reads -1, and the old footprint cell (3,3) is left
holding 8. -/
theorem c2_move_updates_only_corner :
    seqOk fresh [(9, Dir.south), (6, Dir.south), (7, Dir.west), (10, Dir.south),
      (8, Dir.west)] = true ∧
    (applySeq fresh [(9, Dir.south), (6, Dir.south), (7, Dir.west), (10, Dir.south),
      (8, Dir.west)]).blocks.getD 8 default = Block.mk 2 2 2 1 ∧
    getCell (applySeq fresh [(9, Dir.south), (6, Dir.south), (7, Dir.west),
      (10, Dir.south), (8, Dir.west)]).occupancy 3 2 = -1 ∧
    getCell (applySeq fresh [(9, Dir.south), (6, Dir.south), (7, Dir.west),
      (10, Dir.south), (8, Dir.west)]).occupancy 3 3 = 8 := by
  decide

/-- Claim C3 (code evaluated at the failing input): after the legal move
(11, east), the 2 x 1 block 5 at (2,0) could move south by the stated
policy - the one-cell shift stays inside the grid (2 + 1 + 2 = 5) and
the newly entered strip, row r + h = 4 column 0, is empty - but
_check_moves reads row r + 1 = 3, which holds the id 5 of the block
itself, and reports every direction blocked, south included. -/
theorem c3_south_check_reads_own_cell :
    seqOk fresh [(11, Dir.east)] = true ∧
    (applySeq fresh [(11, Dir.east)]).blocks.getD 5 default = Block.mk 2 0 2 1 ∧
    getCell (applySeq fresh [(11, Dir.east)]).occupancy 4 0 = -1 ∧
    getCell (applySeq fresh [(11, Dir.east)]).occupancy 3 0 = 5 ∧
    check_moves (Block.mk 2 0 2 1) (applySeq fresh [(11, Dir.east)]).occupancy =
      Except.ok (Moves.mk false false false false) := by
  decide

/-- Claim C4 (code evaluated at the failing input): on the reachable
board after (9,south),(6,south),(7,west),(10,south),(8,west), the pair
(10, north) is in the sequence returned by find_valid_moves and the
subsequent move_block(10, north) succeeds, but on the resulting board
the stored footprints of block 8 (rows 2-3, column 2) and block 10
(row 3, column 2) overlap at cell (3,2): the invariants are not
preserved. -/
theorem c4_listed_move_creates_overlap :
    seqOk fresh [(9, Dir.south), (6, Dir.south), (7, Dir.west), (10, Dir.south),
      (8, Dir.west), (10, Dir.north)] = true ∧
    ((10, Dir.north) ∈ fvmD (applySeq fresh [(9, Dir.south), (6, Dir.south),
      (7, Dir.west), (10, Dir.south), (8, Dir.west)])) ∧
    (((3 : Int), (2 : Int)) ∈ blockCells ((applySeq fresh [(9, Dir.south),
      (6, Dir.south), (7, Dir.west), (10, Dir.south), (8, Dir.west),
      (10, Dir.north)]).blocks.getD 8 default)) ∧
    (((3 : Int), (2 : Int)) ∈ blockCells ((applySeq fresh [(9, Dir.south),
      (6, Dir.south), (7, Dir.west), (10, Dir.south), (8, Dir.west),
      (10, Dir.north)]).blocks.getD 10 default)) := by
  decide

/-- Claim C5 counterexample: on the fresh board (which is reachable),
move_block(0, north) on the main 2 x 2 block succeeds - the candidate
footprint rows -1:1, columns 1:3 is an empty numpy selection, so the
conflict check sees nothing - and the main block's stored row becomes
-1: it does not remain at row 0, column 1. -/
theorem c5_main_block_moves :
    isOk (move_block fresh 0 Dir.north) = true ∧
    (applyMove fresh 0 Dir.north).blocks.getD 0 default = Block.mk (-1) 1 2 2 := by
  decide

/-- Claim C5 as amended: on the fresh board, moving the main block
south, east or west fails with PlacementConflict, because each of those
candidate 2 x 2 footprints overlaps at least one occupied cell
(including the main block's own cells); but moving it north succeeds,
because the candidate footprint starting at row -1 selects no occupancy
cells at all, and afterwards the main block is no longer at (0,1). -/
theorem c5_amended_main_block_on_fresh :
    move_block fresh 0 Dir.south = Except.error MErr.placementConflict ∧
    move_block fresh 0 Dir.east = Except.error MErr.placementConflict ∧
    move_block fresh 0 Dir.west = Except.error MErr.placementConflict ∧
    isOk (move_block fresh 0 Dir.north) = true ∧
    (applyMove fresh 0 Dir.north).blocks.getD 0 default ≠ Block.mk 0 1 2 2 := by
  decide

/-- Claim C6 (code evaluated at the failing input): on the fresh board
the direction north is not in the legal set of block 1 (it sits on the
top row), yet move_block(1, north) does not fail with PlacementConflict:
it succeeds and mutates the occupancy grid. -/
theorem c6_unlisted_direction_not_rejected :
    ((1, Dir.north) ∉ fvmD fresh) ∧
    isOk (move_block fresh 1 Dir.north) = true ∧
    (applyMove fresh 1 Dir.north).occupancy ≠ fresh.occupancy := by
  decide

/-- Claim C7 (code evaluated at the failing input): block construction
accepts width 3 (the source duplicates the h > 2 test and never tests
w > 2) and accepts a footprint extending past the bottom edge
(row 4 with height 2, so row + height = 6 > 5), both of which the claim
says must fail with InvalidGeometry. -/
theorem c7_invalid_geometry_accepted :
    blockNew 0 0 1 3 = Except.ok (Block.mk 0 0 1 3) ∧
    blockNew 4 0 2 1 = Except.ok (Block.mk 4 0 2 1) := by
  decide

/-- Claim C9 (code evaluated at the failing input): on the reachable
board after (10,south),(9,south),(0,north), the main block sits at
stored position (-1,1) and _check_moves reports it can move north (the
strip it reads, wrapped row 3, is empty); move_block(0, north) then
succeeds; but immediately afterwards - no other block having moved -
_check_moves reports can_move_south = false, because the south check
reads wrapped row 4, where cell (4,2) holds block 10.  The round trip
promised by the claim does not exist. -/
theorem c9_round_trip_not_reversible :
    seqOk fresh [(10, Dir.south), (9, Dir.south), (0, Dir.north)] = true ∧
    check_moves ((applySeq fresh [(10, Dir.south), (9, Dir.south),
      (0, Dir.north)]).blocks.getD 0 default)
      (applySeq fresh [(10, Dir.south), (9, Dir.south), (0, Dir.north)]).occupancy =
      Except.ok (Moves.mk true true false true) ∧
    isOk (move_block (applySeq fresh [(10, Dir.south), (9, Dir.south),
      (0, Dir.north)]) 0 Dir.north) = true ∧
    check_moves ((applySeq fresh [(10, Dir.south), (9, Dir.south), (0, Dir.north),
      (0, Dir.north)]).blocks.getD 0 default)
      (applySeq fresh [(10, Dir.south), (9, Dir.south), (0, Dir.north),
        (0, Dir.north)]).occupancy =
      Except.ok (Moves.mk false true false true) := by
  decide

/-- A slice whose normalised stop does not exceed its normalised start
selects nothing. -/
theorem sliceIdx_eq_nil {a b : Int} {n : Nat} (hle : normIdx b n ≤ normIdx a n) :
    sliceIdx a b n = [] := by
  unfold sliceIdx
  rw [Nat.sub_eq_zero_of_le hle]
  rfl

/-- Membership in a slice selection with non-negative endpoints: exactly
the in-range indices between the endpoints. -/
theorem mem_sliceIdx {a b : Int} {n i : Nat} (ha : 0 ≤ a) (hb : 0 ≤ b) :
    i ∈ sliceIdx a b n ↔ a ≤ (i : Int) ∧ (i : Int) < b ∧ i < n := by
  unfold sliceIdx normIdx
  rw [if_neg (not_lt.mpr ha), if_neg (not_lt.mpr hb), List.mem_range'_1]
  omega

/-- check_valid_position succeeds exactly when the selection holds no
occupied cell. -/
theorem check_valid_position_ok_iff (occ : List (List Int)) (r c : Int)
    (hgt wid : Nat) :
    check_valid_position occ r c hgt wid = Except.ok () ↔
      checkValidB occ r c hgt wid = false := by
  unfold check_valid_position
  split
  · rename_i hcond
    simp [hcond]
  · rename_i hcond
    simp [Bool.not_eq_true] at hcond
    simp [hcond]

/-- The conflict test with non-negative corner: true exactly when some
in-grid cell of the footprint is occupied. -/
theorem checkValidB_eq_true_iff (occ : List (List Int)) (r c : Int)
    (hgt wid : Nat) (hr : 0 ≤ r) (hc : 0 ≤ c) :
    checkValidB occ r c hgt wid = true ↔
      ∃ i j : Nat, i < 5 ∧ j < 4 ∧ r ≤ (i : Int) ∧ (i : Int) < r + hgt ∧
        c ≤ (j : Int) ∧ (j : Int) < c + wid ∧ 0 ≤ getCell occ i j := by
  simp only [checkValidB, List.any_eq_true, decide_eq_true_eq]
  constructor
  · rintro ⟨i, hi, j, hj, hg⟩
    have h1 := (mem_sliceIdx hr (by omega)).mp hi
    have h2 := (mem_sliceIdx hc (by omega)).mp hj
    exact ⟨i, j, h1.2.2, h2.2.2, h1.1, h1.2.1, h2.1, h2.2.1, hg⟩
  · rintro ⟨i, j, h1, h2, h3, h4, h5, h6, hg⟩
    exact ⟨i, (mem_sliceIdx hr (by omega)).mpr ⟨h3, h4, h1⟩,
      j, (mem_sliceIdx hc (by omega)).mpr ⟨h5, h6, h2⟩, hg⟩

/-- Claim C10 counterexample: the footprint with row 4, height 2 extends
past the bottom edge of the grid, yet check_valid_position on the fresh
board does not return success: the slice clips to row 4, cell (4,0) is
occupied by block 11, and PlacementConflict is raised. -/
theorem c10_bottom_overflow_raises :
    check_valid_position fresh.occupancy 4 0 2 1 = Except.error () := by
  decide

/-- Claim C10 as amended: check_valid_position never raises a bounds
error; a footprint whose row or column start is -1 (the out-of-grid
candidates a one-cell shift can produce at the top or left edge) selects
no occupancy cells at all - not even its in-grid portion - and always
returns success; and for a footprint with non-negative corner
(including those extending past the bottom or right edge, which clip),
it returns success exactly when every in-grid cell of the footprint is
unoccupied. -/
theorem c10_out_of_grid_slice_semantics (occ : List (List Int)) (r c : Int)
    (hgt wid : Nat) (hh : hgt ≤ 2) (hw : wid ≤ 2) :
    ((r = -1 ∨ c = -1) → check_valid_position occ r c hgt wid = Except.ok ()) ∧
    (0 ≤ r → 0 ≤ c →
      (check_valid_position occ r c hgt wid = Except.ok () ↔
        ∀ i j : Nat, i < 5 → j < 4 → r ≤ (i : Int) → (i : Int) < r + hgt →
          c ≤ (j : Int) → (j : Int) < c + wid → getCell occ i j < 0)) := by
  constructor
  · intro hrc
    have hempty : checkValidB occ r c hgt wid = false := by
      cases hrc with
      | inl hr =>
        subst hr
        have h5 : sliceIdx (-1) (-1 + (hgt : Int)) 5 = [] := by
          apply sliceIdx_eq_nil
          unfold normIdx
          rw [if_pos (show (-1 : Int) < 0 by norm_num)]
          split <;> omega
        simp [checkValidB, h5]
      | inr hc =>
        subst hc
        have h4 : sliceIdx (-1) (-1 + (wid : Int)) 4 = [] := by
          apply sliceIdx_eq_nil
          unfold normIdx
          rw [if_pos (show (-1 : Int) < 0 by norm_num)]
          split <;> omega
        simp [checkValidB, h4]
    rw [check_valid_position_ok_iff]
    exact hempty
  · intro hr hc
    rw [check_valid_position_ok_iff, ← Bool.not_eq_true,
      checkValidB_eq_true_iff occ r c hgt wid hr hc]
    push_neg
    exact Iff.rfl

/-- Witness for the amended claim C10: instantiated at the fresh board
with the footprint a north move of a 1 x 1 block at (0,0) would request. -/
theorem c10_out_of_grid_slice_semantics_witness :
    check_valid_position fresh.occupancy (-1) 0 1 1 = Except.ok () :=
  (c10_out_of_grid_slice_semantics fresh.occupancy (-1) 0 1 1 (by decide)
    (by decide)).1 (Or.inl rfl)

end Klotski
